import Mathlib

/-!
Verification of the meditation-script-maker CRUD service.

The development shallowly embeds the two tables (`MeditationScripts`,
`MeditationScriptSections` from `src/db/tables.ts`) as Lean structures, the
relational store as lists of rows in insertion order, and the six actions of
`src/unnamed/part_000` as pure functions from a store (plus the authenticated
user, the current time and the freshly generated UUID, which the handlers
receive from the environment) to a result together with the possibly updated
store. Row order models store-native order: `select` keeps it, `insert`
appends, `update`/`delete` act in place. `[x] = await db.select...` is
`List.head?` of the filtered rows. Errors thrown via `ActionError` become an
`Except` error value, and a thrown error leaves the store unchanged. Input
validation (`z.object` schemas, including `.refine`) runs before the handler,
so each operation checks validity first. JavaScript truthiness tests on
optional strings (`if (input.focusArea)`, `if (input.id)`) are `strTruthy`:
present and non-empty. `sections.sort((a, b) => a.orderIndex - b.orderIndex)`
is a stable ascending sort by `orderIndex`, embedded as a stable merge sort
(`sortByOrder`), which computes the unique stable sorted permutation.
-/

namespace MeditationScriptMaker

/-- A row of the `MeditationScripts` table. `userId` is the owner. -/
structure Script where
  id : String
  userId : String
  title : String
  description : Option String
  meditationType : Option String
  focusArea : Option String
  difficulty : Option String
  language : Option String
  targetDurationMinutes : Option Int
  fullScript : Option String
  notes : Option String
  isFavorite : Bool
  createdAt : Int
  updatedAt : Int
  deriving Repr, DecidableEq

/-- A row of the `MeditationScriptSections` table. -/
structure ScriptSection where
  id : String
  scriptId : String
  orderIndex : Int
  sectionType : Option String
  title : Option String
  body : String
  suggestedDurationMinutes : Option Int
  createdAt : Int
  deriving Repr, DecidableEq

/-- The relational store: both tables, rows in store-native (insertion) order. -/
structure Store where
  scripts : List Script
  sections : List ScriptSection
  deriving Repr, DecidableEq

/-- The error taxonomy of the service (`ActionError` codes). -/
inductive Err where
  | unauthorized
  | invalidInput
  | notFound
  | forbidden
  deriving Repr, DecidableEq

/-- Input of `createMeditationScript` after schema parsing; `Option` marks
fields the caller may omit. -/
structure CreateScriptInput where
  title : String
  description : Option String
  meditationType : Option String
  focusArea : Option String
  difficulty : Option String
  language : Option String
  targetDurationMinutes : Option Int
  fullScript : Option String
  notes : Option String
  isFavorite : Option Bool
  deriving Repr, DecidableEq

/-- Input of `updateMeditationScript`; every field but `id` is optional. -/
structure UpdateScriptInput where
  id : String
  title : Option String
  description : Option String
  meditationType : Option String
  focusArea : Option String
  difficulty : Option String
  language : Option String
  targetDurationMinutes : Option Int
  fullScript : Option String
  notes : Option String
  isFavorite : Option Bool
  deriving Repr, DecidableEq

/-- Input of `listMeditationScripts`; `page` and `pageSize` default to 1 and 20
when absent. -/
structure ListScriptsInput where
  page : Option Int
  pageSize : Option Int
  focusArea : Option String
  isFavorite : Option Bool
  deriving Repr, DecidableEq

/-- Input of `upsertMeditationScriptSection`. -/
structure UpsertSectionInput where
  id : Option String
  scriptId : String
  orderIndex : Int
  sectionType : Option String
  title : Option String
  body : String
  suggestedDurationMinutes : Option Int
  deriving Repr, DecidableEq

/-- JavaScript truthiness of an optional string: present and non-empty. -/
def strTruthy (o : Option String) : Bool :=
  match o with
  | some s => !(s == "")
  | none => false

/-- `getOwnedScript`: select the first Script matching both `id` and `userId`;
`none` models the thrown `NOT_FOUND`. -/
def getOwnedScript (db : Store) (scriptId userId : String) : Option Script :=
  (db.scripts.filter (fun s => s.id == scriptId && s.userId == userId)).head?

/-- Schema validity of a create input: `title` non-empty (`min(1)`),
`targetDurationMinutes` positive when present. -/
def validCreateInput (i : CreateScriptInput) : Bool :=
  decide (1 ≤ i.title.length) &&
  (match i.targetDurationMinutes with
   | some n => decide (1 ≤ n)
   | none => true)

/-- The `.refine` of `updateMeditationScript`: some field besides `id` is
defined. -/
def updateHasField (i : UpdateScriptInput) : Bool :=
  i.title.isSome || i.description.isSome || i.meditationType.isSome ||
  i.focusArea.isSome || i.difficulty.isSome || i.language.isSome ||
  i.targetDurationMinutes.isSome || i.fullScript.isSome || i.notes.isSome ||
  i.isFavorite.isSome

/-- Schema validity of an update input: `title` non-empty when present,
`targetDurationMinutes` positive when present, and at least one updatable
field present. -/
def validUpdateInput (i : UpdateScriptInput) : Bool :=
  (match i.title with
   | some t => decide (1 ≤ t.length)
   | none => true) &&
  (match i.targetDurationMinutes with
   | some n => decide (1 ≤ n)
   | none => true) &&
  updateHasField i

/-- Schema validity of an upsert input: `orderIndex` positive, `body`
non-empty, `suggestedDurationMinutes` positive when present. -/
def validUpsertInput (i : UpsertSectionInput) : Bool :=
  decide (1 ≤ i.orderIndex) &&
  decide (1 ≤ i.body.length) &&
  (match i.suggestedDurationMinutes with
   | some n => decide (1 ≤ n)
   | none => true)

/-- The `updates` object of `updateMeditationScript` applied to a row: each
provided field overwrites, each absent field is left untouched, `updatedAt` is
always refreshed. -/
def applyScriptUpdates (i : UpdateScriptInput) (now : Int) (s : Script) : Script :=
  { s with
    title := match i.title with | some v => v | none => s.title
    description := match i.description with | some v => some v | none => s.description
    meditationType := match i.meditationType with | some v => some v | none => s.meditationType
    focusArea := match i.focusArea with | some v => some v | none => s.focusArea
    difficulty := match i.difficulty with | some v => some v | none => s.difficulty
    language := match i.language with | some v => some v | none => s.language
    targetDurationMinutes :=
      match i.targetDurationMinutes with | some v => some v | none => s.targetDurationMinutes
    fullScript := match i.fullScript with | some v => some v | none => s.fullScript
    notes := match i.notes with | some v => some v | none => s.notes
    isFavorite := match i.isFavorite with | some v => v | none => s.isFavorite
    updatedAt := now }

/-- The `updates` object of the update branch of `upsertMeditationScriptSection`
applied to a row: `orderIndex` and `body` overwrite unconditionally, the three
optional fields only when provided. -/
def applySectionUpdates (i : UpsertSectionInput) (s : ScriptSection) : ScriptSection :=
  { s with
    orderIndex := i.orderIndex
    body := i.body
    sectionType := match i.sectionType with | some v => some v | none => s.sectionType
    title := match i.title with | some v => some v | none => s.title
    suggestedDurationMinutes :=
      match i.suggestedDurationMinutes with
      | some v => some v
      | none => s.suggestedDurationMinutes }

/-- The WHERE condition built by `listMeditationScripts`: ownership, plus the
`focusArea` equality filter when the input value is truthy (non-empty), plus
the `isFavorite` equality filter when the input value is defined. -/
def scriptMatches (uid : String) (fa : Option String) (fav : Option Bool) (s : Script) : Bool :=
  s.userId == uid &&
  (match fa with
   | some v => if v == "" then true else s.focusArea == some v
   | none => true) &&
  (match fav with
   | some b => s.isFavorite == b
   | none => true)

/-- Stable ascending sort by `orderIndex`, the embedding of
`sections.sort((a, b) => a.orderIndex - b.orderIndex)` (a stable sort by the
numeric comparator; stable sorts by the same key agree, so merge sort computes
it). -/
def sortByOrder (l : List ScriptSection) : List ScriptSection :=
  l.mergeSort (fun a b => a.orderIndex ≤ b.orderIndex)

/-- `createMeditationScript`: validate, authenticate, insert a new Script with
the generated id, `isFavorite` defaulted to `false`, `createdAt = updatedAt =
now`; return the new id. -/
def createMeditationScript (db : Store) (user : Option String) (now : Int)
    (newId : String) (input : CreateScriptInput) : Except Err String × Store :=
  if validCreateInput input then
    match user with
    | none => (.error .unauthorized, db)
    | some uid =>
      (.ok newId,
        { db with scripts := db.scripts ++ [{
            id := newId
            userId := uid
            title := input.title
            description := input.description
            meditationType := input.meditationType
            focusArea := input.focusArea
            difficulty := input.difficulty
            language := input.language
            targetDurationMinutes := input.targetDurationMinutes
            fullScript := input.fullScript
            notes := input.notes
            isFavorite := input.isFavorite.getD false
            createdAt := now
            updatedAt := now }] })
  else (.error .invalidInput, db)

/-- `updateMeditationScript`: validate (including the at-least-one-field
refinement), authenticate, resolve the owned Script or fail `NOT_FOUND`, then
update the rows matching `(id, userId)` with the provided fields; return the
id. -/
def updateMeditationScript (db : Store) (user : Option String) (now : Int)
    (input : UpdateScriptInput) : Except Err String × Store :=
  if validUpdateInput input then
    match user with
    | none => (.error .unauthorized, db)
    | some uid =>
      match getOwnedScript db input.id uid with
      | none => (.error .notFound, db)
      | some _ =>
        (.ok input.id,
          { db with scripts := db.scripts.map (fun s =>
              if s.id == input.id && s.userId == uid then applyScriptUpdates input now s
              else s) })
  else (.error .invalidInput, db)

/-- `listMeditationScripts`: validate pagination (defaults `page = 1`,
`pageSize = 20`; `page` positive, `pageSize` in `[1, 100]`), authenticate,
filter the Scripts by the WHERE condition, return the page slice
`[start, start + pageSize)` together with the full matching count. -/
def listMeditationScripts (db : Store) (user : Option String)
    (input : ListScriptsInput) : Except Err (List Script × Nat) :=
  let page := input.page.getD 1
  let pageSize := input.pageSize.getD 20
  if 1 ≤ page ∧ 1 ≤ pageSize ∧ pageSize ≤ 100 then
    match user with
    | none => .error .unauthorized
    | some uid =>
      let scripts := db.scripts.filter (scriptMatches uid input.focusArea input.isFavorite)
      .ok ((scripts.drop ((page - 1) * pageSize).toNat).take pageSize.toNat, scripts.length)
  else .error .invalidInput

/-- `getMeditationScriptWithSections`: authenticate, resolve the owned Script
or fail `NOT_FOUND`, fetch the sections with the matching `scriptId` and sort
them stably ascending by `orderIndex`. -/
def getMeditationScriptWithSections (db : Store) (user : Option String)
    (id : String) : Except Err (Script × List ScriptSection) :=
  match user with
  | none => .error .unauthorized
  | some uid =>
    match getOwnedScript db id uid with
    | none => .error .notFound
    | some script =>
      .ok (script, sortByOrder (db.sections.filter (fun s => s.scriptId == script.id)))

/-- `upsertMeditationScriptSection`: validate, authenticate, resolve the owned
parent Script or fail `NOT_FOUND`. With a truthy `id`: look the Section up by
id alone (`NOT_FOUND` when absent), fail `FORBIDDEN` when its `scriptId`
differs from the resolved Script, otherwise update it and return its id. With
an absent or empty `id`: insert a new Section under the resolved Script with
the generated id and return that id. -/
def upsertMeditationScriptSection (db : Store) (user : Option String) (now : Int)
    (newId : String) (input : UpsertSectionInput) : Except Err String × Store :=
  if validUpsertInput input then
    match user with
    | none => (.error .unauthorized, db)
    | some uid =>
      match getOwnedScript db input.scriptId uid with
      | none => (.error .notFound, db)
      | some script =>
        if strTruthy input.id then
          let sid := input.id.getD ""
          match (db.sections.filter (fun s => s.id == sid)).head? with
          | none => (.error .notFound, db)
          | some existingSection =>
            if existingSection.scriptId == script.id then
              (.ok sid,
                { db with sections := db.sections.map (fun s =>
                    if s.id == sid then applySectionUpdates input s else s) })
            else (.error .forbidden, db)
        else
          (.ok newId,
            { db with sections := db.sections ++ [{
                id := newId
                scriptId := script.id
                orderIndex := input.orderIndex
                sectionType := input.sectionType
                title := input.title
                body := input.body
                suggestedDurationMinutes := input.suggestedDurationMinutes
                createdAt := now }] })
  else (.error .invalidInput, db)

/-- `deleteMeditationScriptSection`: authenticate, look the Section up by id
(`NOT_FOUND` when absent), resolve its parent Script with the ownership check
(`NOT_FOUND` when not owned), delete the Section, return its id. -/
def deleteMeditationScriptSection (db : Store) (user : Option String)
    (id : String) : Except Err String × Store :=
  match user with
  | none => (.error .unauthorized, db)
  | some uid =>
    match (db.sections.filter (fun s => s.id == id)).head? with
    | none => (.error .notFound, db)
    | some sec =>
      match getOwnedScript db sec.scriptId uid with
      | none => (.error .notFound, db)
      | some _ =>
        (.ok id, { db with sections := db.sections.filter (fun s => !(s.id == id)) })


/-- The list of Scripts matching the WHERE condition of `listMeditationScripts`,
in store-native order. -/
def matchingScripts (db : Store) (uid : String) (i : ListScriptsInput) : List Script :=
  db.scripts.filter (scriptMatches uid i.focusArea i.isFavorite)

/-- Per-row frame property of a Script update: the row matching `(id, userId)`
keeps its identity fields, takes every provided field value, keeps every
absent field and gets the fresh `updatedAt`; other rows are untouched. -/
def scriptRowUpdated (i : UpdateScriptInput) (now : Int) (uid : String)
    (old new : Script) : Prop :=
  (¬(old.id = i.id ∧ old.userId = uid) → new = old) ∧
  (old.id = i.id → old.userId = uid →
    new.id = old.id ∧ new.userId = old.userId ∧ new.createdAt = old.createdAt ∧
    new.updatedAt = now ∧
    (∀ v, i.title = some v → new.title = v) ∧
    (i.title = none → new.title = old.title) ∧
    (∀ v, i.description = some v → new.description = some v) ∧
    (i.description = none → new.description = old.description) ∧
    (∀ v, i.meditationType = some v → new.meditationType = some v) ∧
    (i.meditationType = none → new.meditationType = old.meditationType) ∧
    (∀ v, i.focusArea = some v → new.focusArea = some v) ∧
    (i.focusArea = none → new.focusArea = old.focusArea) ∧
    (∀ v, i.difficulty = some v → new.difficulty = some v) ∧
    (i.difficulty = none → new.difficulty = old.difficulty) ∧
    (∀ v, i.language = some v → new.language = some v) ∧
    (i.language = none → new.language = old.language) ∧
    (∀ v, i.targetDurationMinutes = some v → new.targetDurationMinutes = some v) ∧
    (i.targetDurationMinutes = none → new.targetDurationMinutes = old.targetDurationMinutes) ∧
    (∀ v, i.fullScript = some v → new.fullScript = some v) ∧
    (i.fullScript = none → new.fullScript = old.fullScript) ∧
    (∀ v, i.notes = some v → new.notes = some v) ∧
    (i.notes = none → new.notes = old.notes) ∧
    (∀ v, i.isFavorite = some v → new.isFavorite = v) ∧
    (i.isFavorite = none → new.isFavorite = old.isFavorite))

/-- Per-row frame property of the section update branch of the upsert: the row
with the given id keeps its identity fields, takes `orderIndex` and `body`
unconditionally and the three optional fields only when provided; other rows
are untouched. -/
def sectionRowUpdated (i : UpsertSectionInput) (sid : String)
    (old new : ScriptSection) : Prop :=
  (old.id ≠ sid → new = old) ∧
  (old.id = sid →
    new.id = old.id ∧ new.scriptId = old.scriptId ∧ new.createdAt = old.createdAt ∧
    new.orderIndex = i.orderIndex ∧ new.body = i.body ∧
    (∀ v, i.sectionType = some v → new.sectionType = some v) ∧
    (i.sectionType = none → new.sectionType = old.sectionType) ∧
    (∀ v, i.title = some v → new.title = some v) ∧
    (i.title = none → new.title = old.title) ∧
    (∀ v, i.suggestedDurationMinutes = some v → new.suggestedDurationMinutes = some v) ∧
    (i.suggestedDurationMinutes = none →
       new.suggestedDurationMinutes = old.suggestedDurationMinutes))

/-- Sample Script owned by user `u`. -/
def sampleScriptA : Script where
  id := "A"
  userId := "u"
  title := "Morning Calm"
  description := none
  meditationType := none
  focusArea := some "stress"
  difficulty := none
  language := none
  targetDurationMinutes := none
  fullScript := none
  notes := none
  isFavorite := false
  createdAt := 0
  updatedAt := 0

/-- Second sample Script owned by user `u`. -/
def sampleScriptB : Script :=
  { sampleScriptA with id := "B", title := "Evening Calm", focusArea := none }

/-- Sample Script owned by the other user `v`. -/
def sampleScriptC : Script := { sampleScriptA with id := "C", userId := "v", focusArea := none }

/-- Sample Section attached to the foreign Script `C`. -/
def sampleSectionX : ScriptSection where
  id := "X"
  scriptId := "C"
  orderIndex := 1
  sectionType := none
  title := none
  body := "Breathe in."
  suggestedDurationMinutes := none
  createdAt := 0

/-- Sample Section `T1` belonging to Script `A`. -/
def sampleSectionT1 : ScriptSection := { sampleSectionX with id := "T1", scriptId := "A" }

/-- Sample update input carrying only a new title. -/
def sampleUpdateInput : UpdateScriptInput where
  id := "A"
  title := some "T"
  description := none
  meditationType := none
  focusArea := none
  difficulty := none
  language := none
  targetDurationMinutes := none
  fullScript := none
  notes := none
  isFavorite := none

/-- Update input providing no field besides the id. -/
def idOnlyUpdateInput : UpdateScriptInput := { sampleUpdateInput with title := none }

/-- Sample upsert input with no section id. -/
def sampleUpsertInput : UpsertSectionInput where
  id := none
  scriptId := "A"
  orderIndex := 1
  sectionType := none
  title := none
  body := "Breathe out."
  suggestedDurationMinutes := none

/-- Upsert input whose section id is present but the empty string. -/
def emptyIdUpsertInput : UpsertSectionInput := { sampleUpsertInput with id := some "" }

/-- Upsert input naming the foreign Section `X` while targeting own Script `A`. -/
def upsertForeignIdInput : UpsertSectionInput := { sampleUpsertInput with id := some "X" }

/-- Upsert input targeting Section `T1`. -/
def updateSectionInput : UpsertSectionInput :=
  { sampleUpsertInput with id := some "T1", orderIndex := 2 }

/-- Create input with only a title, everything else omitted. -/
def sampleCreateInput : CreateScriptInput where
  title := "Morning Calm"
  description := none
  meditationType := none
  focusArea := none
  difficulty := none
  language := none
  targetDurationMinutes := none
  fullScript := none
  notes := none
  isFavorite := none

/-- List input filtering on `isFavorite = false`. -/
def favoriteFilterInput : ListScriptsInput :=
  { page := none, pageSize := none, focusArea := none, isFavorite := some false }

/-- List input with a supplied but empty `focusArea` filter. -/
def emptyFocusAreaInput : ListScriptsInput :=
  { page := none, pageSize := none, focusArea := some "", isFavorite := none }

/-- Pagination input selecting the second page of size one. -/
def pageTwoInput : ListScriptsInput :=
  { page := some 2, pageSize := some 1, focusArea := none, isFavorite := none }

/-- Store holding only the foreign-owned Script `C` and its Section `X`. -/
def foreignStore : Store := ⟨[sampleScriptC], [sampleSectionX]⟩

/-- Store holding only the Script of user `u` and no Sections. -/
def oneScriptStore : Store := ⟨[sampleScriptA], []⟩

/-- Store with exactly the two Scripts of user `u`. -/
def twoScriptStore : Store := ⟨[sampleScriptA, sampleScriptB], []⟩

/-- Store with Script `A` of user `u` and its Section `T1`. -/
def scriptWithSectionStore : Store := ⟨[sampleScriptA], [sampleSectionT1]⟩

/-- Store whose only Section belongs to the foreign Script `C`; the caller `u`
owns Script `A`. -/
def storeWithForeignSection : Store := ⟨[sampleScriptA, sampleScriptC], [sampleSectionX]⟩

/-- The same Scripts as `storeWithForeignSection` with no Sections at all. -/
def storeNoSections : Store := ⟨[sampleScriptA, sampleScriptC], []⟩

/-- Store with Script `A` and three Sections fetched with orderIndex 3, 1, 2. -/
def unsortedSectionsStore : Store :=
  ⟨[sampleScriptA],
   [{ sampleSectionX with id := "s3", scriptId := "A", orderIndex := 3 },
    { sampleSectionX with id := "s1", scriptId := "A", orderIndex := 1 },
    { sampleSectionX with id := "s2", scriptId := "A", orderIndex := 2 }]⟩

/-- A failed owned-script lookup is exactly the absent-or-foreign case: no
stored Script carries both the requested id and the caller as owner. -/
theorem getOwnedScript_eq_none_iff (db : Store) (id uid : String) :
    getOwnedScript db id uid = none ↔ ∀ s ∈ db.scripts, s.id = id → s.userId ≠ uid := by
  simp [getOwnedScript]

/-- Field-level description of `applyScriptUpdates`: identity fields kept,
`updatedAt` refreshed, provided fields overwritten, absent fields kept. -/
theorem applyScriptUpdates_fields (i : UpdateScriptInput) (now : Int) (s : Script) :
    (applyScriptUpdates i now s).id = s.id ∧
    (applyScriptUpdates i now s).userId = s.userId ∧
    (applyScriptUpdates i now s).createdAt = s.createdAt ∧
    (applyScriptUpdates i now s).updatedAt = now ∧
    (∀ v, i.title = some v → (applyScriptUpdates i now s).title = v) ∧
    (i.title = none → (applyScriptUpdates i now s).title = s.title) ∧
    (∀ v, i.description = some v → (applyScriptUpdates i now s).description = some v) ∧
    (i.description = none → (applyScriptUpdates i now s).description = s.description) ∧
    (∀ v, i.meditationType = some v → (applyScriptUpdates i now s).meditationType = some v) ∧
    (i.meditationType = none → (applyScriptUpdates i now s).meditationType = s.meditationType) ∧
    (∀ v, i.focusArea = some v → (applyScriptUpdates i now s).focusArea = some v) ∧
    (i.focusArea = none → (applyScriptUpdates i now s).focusArea = s.focusArea) ∧
    (∀ v, i.difficulty = some v → (applyScriptUpdates i now s).difficulty = some v) ∧
    (i.difficulty = none → (applyScriptUpdates i now s).difficulty = s.difficulty) ∧
    (∀ v, i.language = some v → (applyScriptUpdates i now s).language = some v) ∧
    (i.language = none → (applyScriptUpdates i now s).language = s.language) ∧
    (∀ v, i.targetDurationMinutes = some v →
       (applyScriptUpdates i now s).targetDurationMinutes = some v) ∧
    (i.targetDurationMinutes = none →
       (applyScriptUpdates i now s).targetDurationMinutes = s.targetDurationMinutes) ∧
    (∀ v, i.fullScript = some v → (applyScriptUpdates i now s).fullScript = some v) ∧
    (i.fullScript = none → (applyScriptUpdates i now s).fullScript = s.fullScript) ∧
    (∀ v, i.notes = some v → (applyScriptUpdates i now s).notes = some v) ∧
    (i.notes = none → (applyScriptUpdates i now s).notes = s.notes) ∧
    (∀ v, i.isFavorite = some v → (applyScriptUpdates i now s).isFavorite = v) ∧
    (i.isFavorite = none → (applyScriptUpdates i now s).isFavorite = s.isFavorite) := by
  unfold applyScriptUpdates
  refine ⟨rfl, rfl, rfl, rfl, ?_, ?_, ?_, ?_, ?_, ?_, ?_, ?_, ?_, ?_, ?_, ?_, ?_, ?_,
    ?_, ?_, ?_, ?_, ?_, ?_⟩ <;>
  · intros
    simp_all

/-- The WHERE condition of `listMeditationScripts` characterised: ownership,
the `focusArea` equality only for a supplied non-empty value, the `isFavorite`
equality only for a supplied value. -/
theorem scriptMatches_iff (uid : String) (fa : Option String) (fav : Option Bool) (s : Script) :
    scriptMatches uid fa fav s = true ↔
      (s.userId = uid ∧
       (∀ v, fa = some v → v ≠ "" → s.focusArea = some v) ∧
       (∀ b, fav = some b → s.isFavorite = b)) := by
  unfold scriptMatches
  cases fa with
  | none =>
    cases fav with
    | none => simp
    | some b => simp
  | some v =>
    cases fav with
    | none => by_cases hv : v = "" <;> simp [hv]
    | some b => by_cases hv : v = "" <;> simp [hv, and_assoc]

/-- On valid pagination, `listMeditationScripts` returns the page slice of the
matching Scripts together with the full matching count. -/
theorem listScripts_ok (db : Store) (uid : String) (i : ListScriptsInput)
    (hv : 1 ≤ i.page.getD 1 ∧ 1 ≤ i.pageSize.getD 20 ∧ i.pageSize.getD 20 ≤ 100) :
    listMeditationScripts db (some uid) i =
      .ok (((matchingScripts db uid i).drop
              (((i.page.getD 1) - 1) * (i.pageSize.getD 20)).toNat).take
             (i.pageSize.getD 20).toNat,
           (matchingScripts db uid i).length) := by
  simp only [listMeditationScripts, matchingScripts]
  rw [if_pos hv]

theorem sortByOrder_le_trans (a b c : ScriptSection) :
    (decide (a.orderIndex ≤ b.orderIndex)) → (decide (b.orderIndex ≤ c.orderIndex)) →
    (decide (a.orderIndex ≤ c.orderIndex)) := by
  intro hab hbc
  simp only [decide_eq_true_eq] at *
  omega

theorem sortByOrder_le_total (a b : ScriptSection) :
    ((decide (a.orderIndex ≤ b.orderIndex)) || (decide (b.orderIndex ≤ a.orderIndex))) = true := by
  simp only [Bool.or_eq_true, decide_eq_true_eq]
  omega

/-- The sorted section list is a permutation of the fetched one. -/
theorem sortByOrder_perm (l : List ScriptSection) : (sortByOrder l).Perm l :=
  List.mergeSort_perm l _

/-- The sorted section list is ascending in `orderIndex`. -/
theorem sortByOrder_pairwise (l : List ScriptSection) :
    (sortByOrder l).Pairwise (fun a b => a.orderIndex ≤ b.orderIndex) := by
  have h := @List.sorted_mergeSort ScriptSection
    (fun a b => decide (a.orderIndex ≤ b.orderIndex))
    sortByOrder_le_trans sortByOrder_le_total l
  exact h.imp (fun hab => by simpa using hab)

/-- Stability of the sort: the sections having any fixed `orderIndex` appear in
the output in exactly their fetch order. -/
theorem sortByOrder_stable (l : List ScriptSection) (k : Int) :
    (sortByOrder l).filter (fun s => s.orderIndex == k)
      = l.filter (fun s => s.orderIndex == k) := by
  have hpair : (l.filter (fun s => s.orderIndex == k)).Pairwise
      (fun a b : ScriptSection => (decide (a.orderIndex ≤ b.orderIndex)) = true) := by
    apply List.pairwise_of_forall_mem_list
    intro a ha b hb
    rw [List.mem_filter] at ha hb
    have h1 : a.orderIndex = k := by simpa using ha.2
    have h2 : b.orderIndex = k := by simpa using hb.2
    simp [h1, h2]
  have hsub : List.Sublist (l.filter (fun s => s.orderIndex == k)) (sortByOrder l) :=
    List.sublist_mergeSort sortByOrder_le_trans sortByOrder_le_total hpair (List.filter_sublist l)
  have hsub2 : List.Sublist (l.filter (fun s => s.orderIndex == k))
      ((sortByOrder l).filter (fun s => s.orderIndex == k)) := by
    have h := hsub.filter (fun s => s.orderIndex == k)
    simpa using h
  have hlen : ((sortByOrder l).filter (fun s => s.orderIndex == k)).length
      = (l.filter (fun s => s.orderIndex == k)).length :=
    ((sortByOrder_perm l).filter _).length_eq
  exact (hsub2.eq_of_length hlen.symm).symm

/-- C1: each operation that resolves a Script by id on behalf of the caller
(updateScript, getScriptWithSections, upsertSection via its scriptId,
deleteSection via the parent of the looked-up Section) fails with NotFound and
leaves the store unchanged whenever no stored Script carries both that id and
the caller as owner — covering the absent Script and the foreign-owned Script
alike, with the identical observable outcome in both cases. -/
theorem ops_notFound_on_absent_or_foreign_script
    (db : Store) (uid : String) (now : Int) (newId : String)
    (ui : UpdateScriptInput) (gid : String) (si : UpsertSectionInput)
    (did : String) (sec : ScriptSection)
    (hu : validUpdateInput ui = true)
    (hs : validUpsertInput si = true)
    (h1 : ∀ s ∈ db.scripts, s.id = ui.id → s.userId ≠ uid)
    (h2 : ∀ s ∈ db.scripts, s.id = gid → s.userId ≠ uid)
    (h3 : ∀ s ∈ db.scripts, s.id = si.scriptId → s.userId ≠ uid)
    (h4 : (db.sections.filter (fun s => s.id == did)).head? = some sec)
    (h5 : ∀ s ∈ db.scripts, s.id = sec.scriptId → s.userId ≠ uid) :
    updateMeditationScript db (some uid) now ui = (.error .notFound, db) ∧
    getMeditationScriptWithSections db (some uid) gid = .error .notFound ∧
    upsertMeditationScriptSection db (some uid) now newId si = (.error .notFound, db) ∧
    deleteMeditationScriptSection db (some uid) did = (.error .notFound, db) := by
  have g1 : getOwnedScript db ui.id uid = none := (getOwnedScript_eq_none_iff db ui.id uid).mpr h1
  have g2 : getOwnedScript db gid uid = none := (getOwnedScript_eq_none_iff db gid uid).mpr h2
  have g3 : getOwnedScript db si.scriptId uid = none :=
    (getOwnedScript_eq_none_iff db si.scriptId uid).mpr h3
  have g5 : getOwnedScript db sec.scriptId uid = none :=
    (getOwnedScript_eq_none_iff db sec.scriptId uid).mpr h5
  refine ⟨?_, ?_, ?_, ?_⟩
  · simp [updateMeditationScript, hu, g1]
  · simp [getMeditationScriptWithSections, g2]
  · simp [upsertMeditationScriptSection, hs, g3]
  · simp [deleteMeditationScriptSection, h4, g5]

/-- C1 witness: on a store holding only the foreign Script `C` and its Section
`X`, all four operations fail with NotFound and change nothing. -/
theorem ops_notFound_on_absent_or_foreign_script_witness :
    updateMeditationScript foreignStore (some "u") 5 sampleUpdateInput
      = (.error .notFound, foreignStore) ∧
    getMeditationScriptWithSections foreignStore (some "u") "C" = .error .notFound ∧
    upsertMeditationScriptSection foreignStore (some "u") 5 "N" sampleUpsertInput
      = (.error .notFound, foreignStore) ∧
    deleteMeditationScriptSection foreignStore (some "u") "X"
      = (.error .notFound, foreignStore) :=
  ops_notFound_on_absent_or_foreign_script foreignStore "u" 5 "N"
    sampleUpdateInput "C" sampleUpsertInput "X" sampleSectionX
    (by decide) (by decide) (by decide) (by decide) (by decide) (by decide) (by decide)

/-- C2: out-of-range pagination fails InvalidInput for every caller; valid
pagination returns the slice of the matching Scripts at offset
`(page - 1) * pageSize` of length at most `pageSize` and the full matching
count; an empty matching set gives `([], 0)` rather than an error. -/
theorem listScripts_pagination (db : Store) (uid : String) (i : ListScriptsInput) :
    (¬(1 ≤ i.page.getD 1 ∧ 1 ≤ i.pageSize.getD 20 ∧ i.pageSize.getD 20 ≤ 100) →
       ∀ u, listMeditationScripts db u i = .error .invalidInput) ∧
    ((1 ≤ i.page.getD 1 ∧ 1 ≤ i.pageSize.getD 20 ∧ i.pageSize.getD 20 ≤ 100) →
       listMeditationScripts db (some uid) i =
         .ok (((matchingScripts db uid i).drop
                 (((i.page.getD 1) - 1) * (i.pageSize.getD 20)).toNat).take
                (i.pageSize.getD 20).toNat,
              (matchingScripts db uid i).length) ∧
       (((matchingScripts db uid i).drop
           (((i.page.getD 1) - 1) * (i.pageSize.getD 20)).toNat).take
          (i.pageSize.getD 20).toNat).length ≤ (i.pageSize.getD 20).toNat ∧
       (matchingScripts db uid i = [] →
          listMeditationScripts db (some uid) i = .ok ([], 0))) := by
  constructor
  · intro hinv u
    simp only [listMeditationScripts]
    rw [if_neg hinv]
  · intro hv
    refine ⟨listScripts_ok db uid i hv, List.length_take_le _ _, ?_⟩
    intro hempty
    rw [listScripts_ok db uid i hv, hempty]
    simp

/-- C2 witness: with exactly two owned Scripts, page 2 of size 1 returns just
the second Script and total 2. -/
theorem listScripts_pagination_witness :
    listMeditationScripts twoScriptStore (some "u") pageTwoInput = .ok ([sampleScriptB], 2) :=
  (((listScripts_pagination twoScriptStore "u" pageTwoInput).2 (by decide)).1).trans (by rfl)

/-- C3 counterexample: with `focusArea` supplied as the empty string, the call
returns a Script whose `focusArea` is not the supplied value and counts it in
`total`, so a supplied filter is not always applied as an equality filter. -/
theorem listScripts_focusArea_empty_cex :
    listMeditationScripts ⟨[sampleScriptA], []⟩ (some "u") emptyFocusAreaInput
      = .ok ([sampleScriptA], 1) ∧
    sampleScriptA.focusArea ≠ some "" := by
  exact ⟨by rfl, by decide⟩

/-- C3 amended: the ownership filter always applies; the `isFavorite` equality
filter applies whenever supplied; the `focusArea` equality filter applies only
when supplied non-empty (a supplied empty string imposes no restriction); the
applied filters are ANDed, an unsupplied filter imposes no restriction, and
`total` counts exactly the Scripts passing the applied filters. -/
theorem listScripts_filters_amended (db : Store) (uid : String) (i : ListScriptsInput)
    (hv : 1 ≤ i.page.getD 1 ∧ 1 ≤ i.pageSize.getD 20 ∧ i.pageSize.getD 20 ≤ 100) :
    ∃ items, listMeditationScripts db (some uid) i
        = .ok (items, (matchingScripts db uid i).length) ∧
      (∀ s, s ∈ matchingScripts db uid i ↔
        (s ∈ db.scripts ∧ s.userId = uid ∧
         (∀ v, i.focusArea = some v → v ≠ "" → s.focusArea = some v) ∧
         (∀ b, i.isFavorite = some b → s.isFavorite = b))) ∧
      ∀ x ∈ items, x.userId = uid ∧
        (∀ v, i.focusArea = some v → v ≠ "" → x.focusArea = some v) ∧
        (∀ b, i.isFavorite = some b → x.isFavorite = b) := by
  have hmain := listScripts_ok db uid i hv
  refine ⟨_, hmain, ?_, ?_⟩
  · intro s
    simp only [matchingScripts, List.mem_filter, scriptMatches_iff]
  · intro x hx
    have hxm : x ∈ matchingScripts db uid i := by
      have h1 := List.take_subset _ _ hx
      exact List.drop_subset _ _ h1
    simp only [matchingScripts, List.mem_filter, scriptMatches_iff] at hxm
    exact hxm.2

/-- C3 witness: the amended filter characterisation applied to a store with two
Scripts and an `isFavorite = false` filter. -/
theorem listScripts_filters_amended_witness :
    ∃ items, listMeditationScripts twoScriptStore (some "u") favoriteFilterInput
        = .ok (items, (matchingScripts twoScriptStore "u" favoriteFilterInput).length) ∧
      (∀ s, s ∈ matchingScripts twoScriptStore "u" favoriteFilterInput ↔
        (s ∈ twoScriptStore.scripts ∧ s.userId = "u" ∧
         (∀ v, favoriteFilterInput.focusArea = some v → v ≠ "" → s.focusArea = some v) ∧
         (∀ b, favoriteFilterInput.isFavorite = some b → s.isFavorite = b))) ∧
      ∀ x ∈ items, x.userId = "u" ∧
        (∀ v, favoriteFilterInput.focusArea = some v → v ≠ "" → x.focusArea = some v) ∧
        (∀ b, favoriteFilterInput.isFavorite = some b → x.isFavorite = b) :=
  listScripts_filters_amended twoScriptStore "u" favoriteFilterInput (by decide)

/-- C4: an update providing no field besides the id fails InvalidInput with the
store untouched; a valid update on an owned Script returns its id, leaves the
Sections and the number of Scripts unchanged, and rewrites exactly the rows
matching `(id, owner)`: provided fields take their new values, absent fields
keep their prior values, id, owner and `createdAt` included, and `updatedAt`
is refreshed. -/
theorem updateScript_partial_semantics (db : Store) (uid : String) (now : Int)
    (i : UpdateScriptInput) :
    (updateHasField i = false →
       ∀ u, updateMeditationScript db u now i = (.error .invalidInput, db)) ∧
    (validUpdateInput i = true →
       ∀ s, getOwnedScript db i.id uid = some s →
       ∃ db', updateMeditationScript db (some uid) now i = (.ok i.id, db') ∧
         db'.sections = db.sections ∧
         db'.scripts.length = db.scripts.length ∧
         ∀ (j : Nat) (old : Script), db.scripts[j]? = some old →
           ∃ new, db'.scripts[j]? = some new ∧ scriptRowUpdated i now uid old new) := by
  constructor
  · intro hnf u
    have hval : validUpdateInput i = false := by
      simp [validUpdateInput, hnf]
    simp [updateMeditationScript, hval]
  · intro hval s hsome
    simp only [updateMeditationScript, hval, if_true, hsome]
    refine ⟨_, rfl, rfl, by simp, ?_⟩
    intro j old hold
    by_cases hmatch : old.id = i.id ∧ old.userId = uid
    · refine ⟨applyScriptUpdates i now old, ?_, ?_, ?_⟩
      · simp [hold, hmatch.1, hmatch.2]
      · intro hc
        exact absurd hmatch hc
      · intro _ _
        have hf := applyScriptUpdates_fields i now old
        exact ⟨hf.1, hf.2.1, hf.2.2.1, hf.2.2.2.1, hf.2.2.2.2.1, hf.2.2.2.2.2.1,
          hf.2.2.2.2.2.2.1, hf.2.2.2.2.2.2.2.1, hf.2.2.2.2.2.2.2.2.1,
          hf.2.2.2.2.2.2.2.2.2.1, hf.2.2.2.2.2.2.2.2.2.2.1,
          hf.2.2.2.2.2.2.2.2.2.2.2.1, hf.2.2.2.2.2.2.2.2.2.2.2.2.1,
          hf.2.2.2.2.2.2.2.2.2.2.2.2.2.1, hf.2.2.2.2.2.2.2.2.2.2.2.2.2.2.1,
          hf.2.2.2.2.2.2.2.2.2.2.2.2.2.2.2.1, hf.2.2.2.2.2.2.2.2.2.2.2.2.2.2.2.2.1,
          hf.2.2.2.2.2.2.2.2.2.2.2.2.2.2.2.2.2.1,
          hf.2.2.2.2.2.2.2.2.2.2.2.2.2.2.2.2.2.2.1,
          hf.2.2.2.2.2.2.2.2.2.2.2.2.2.2.2.2.2.2.2.1,
          hf.2.2.2.2.2.2.2.2.2.2.2.2.2.2.2.2.2.2.2.2.1,
          hf.2.2.2.2.2.2.2.2.2.2.2.2.2.2.2.2.2.2.2.2.2.1,
          hf.2.2.2.2.2.2.2.2.2.2.2.2.2.2.2.2.2.2.2.2.2.2.1,
          hf.2.2.2.2.2.2.2.2.2.2.2.2.2.2.2.2.2.2.2.2.2.2.2⟩
    · refine ⟨old, ?_, ?_, ?_⟩
      · rcases not_and_or.mp hmatch with h | h <;> simp [hold, h]
      · intro _
        rfl
      · intro h1 h2
        exact absurd ⟨h1, h2⟩ hmatch

/-- C4 witness: the id-only update fails InvalidInput, and the title-only
update on the singleton store satisfies the frame description. -/
theorem updateScript_partial_semantics_witness :
    updateMeditationScript oneScriptStore (some "u") 9 idOnlyUpdateInput
      = (.error .invalidInput, oneScriptStore) ∧
    ∃ db', updateMeditationScript oneScriptStore (some "u") 9 sampleUpdateInput
        = (.ok sampleUpdateInput.id, db') ∧
      db'.sections = oneScriptStore.sections ∧
      db'.scripts.length = oneScriptStore.scripts.length ∧
      ∀ (j : Nat) (old : Script), oneScriptStore.scripts[j]? = some old →
        ∃ new, db'.scripts[j]? = some new ∧ scriptRowUpdated sampleUpdateInput 9 "u" old new :=
  ⟨(updateScript_partial_semantics oneScriptStore "u" 9 idOnlyUpdateInput).1 (by decide)
     (some "u"),
   (updateScript_partial_semantics oneScriptStore "u" 9 sampleUpdateInput).2 (by decide)
     sampleScriptA (by decide)⟩

/-- C5: on an owned Script the fetch returns exactly the Sections whose
`scriptId` equals the Script's id (a permutation of the filtered fetch),
sorted ascending by `orderIndex`, and stably so: the Sections of any fixed
`orderIndex` keep their relative fetch order. -/
theorem getScriptWithSections_sorted (db : Store) (uid id : String) (script : Script)
    (h : getOwnedScript db id uid = some script) :
    ∃ secs, getMeditationScriptWithSections db (some uid) id = .ok (script, secs) ∧
      secs.Perm (db.sections.filter (fun s => s.scriptId == script.id)) ∧
      secs.Pairwise (fun a b => a.orderIndex ≤ b.orderIndex) ∧
      ∀ k : Int, secs.filter (fun s => s.orderIndex == k)
        = (db.sections.filter (fun s => s.scriptId == script.id)).filter
            (fun s => s.orderIndex == k) := by
  refine ⟨sortByOrder (db.sections.filter (fun s => s.scriptId == script.id)), ?_, ?_, ?_, ?_⟩
  · simp [getMeditationScriptWithSections, h]
  · exact sortByOrder_perm _
  · exact sortByOrder_pairwise _
  · intro k
    exact sortByOrder_stable _ k

/-- C5 witness: Sections fetched with orderIndex 3, 1, 2 come back sorted and
stable. -/
theorem getScriptWithSections_sorted_witness :
    ∃ secs, getMeditationScriptWithSections unsortedSectionsStore (some "u") "A"
        = .ok (sampleScriptA, secs) ∧
      secs.Perm (unsortedSectionsStore.sections.filter
        (fun s => s.scriptId == sampleScriptA.id)) ∧
      secs.Pairwise (fun a b => a.orderIndex ≤ b.orderIndex) ∧
      ∀ k : Int, secs.filter (fun s => s.orderIndex == k)
        = (unsortedSectionsStore.sections.filter
            (fun s => s.scriptId == sampleScriptA.id)).filter (fun s => s.orderIndex == k) :=
  getScriptWithSections_sorted unsortedSectionsStore "u" "A" sampleScriptA (by decide)

/-- C6 counterexample: an upsert whose id is present but the empty string does
not fail NotFound for the nonexistent Section id; it succeeds and creates,
although no stored Section has the empty id. -/
theorem upsertSection_present_empty_id_cex :
    emptyIdUpsertInput.id.isSome = true ∧
    (∀ s ∈ oneScriptStore.sections, s.id ≠ "") ∧
    (upsertMeditationScriptSection oneScriptStore (some "u") 7 "N" emptyIdUpsertInput).1
      = .ok "N" := by
  exact ⟨rfl, by decide, by rfl⟩

/-- C6 amended: for an upsert whose id is present and non-empty, once the owned
parent Script is resolved: an absent Section fails NotFound; a Section whose
`scriptId` differs from the resolved Script fails Forbidden; otherwise the
Section row is updated in place (`orderIndex` and `body` unconditionally, the
optional fields only when provided) and the existing section id is returned. -/
theorem upsertSection_nonempty_id_semantics (db : Store) (uid : String) (now : Int)
    (newId : String) (i : UpsertSectionInput) (sid : String) (script : Script)
    (hv : validUpsertInput i = true)
    (hid : i.id = some sid) (hne : sid ≠ "")
    (hscript : getOwnedScript db i.scriptId uid = some script) :
    ((db.sections.filter (fun s => s.id == sid)).head? = none →
       upsertMeditationScriptSection db (some uid) now newId i = (.error .notFound, db)) ∧
    (∀ ex, (db.sections.filter (fun s => s.id == sid)).head? = some ex →
       ex.scriptId ≠ script.id →
       upsertMeditationScriptSection db (some uid) now newId i = (.error .forbidden, db)) ∧
    (∀ ex, (db.sections.filter (fun s => s.id == sid)).head? = some ex →
       ex.scriptId = script.id →
       ∃ db', upsertMeditationScriptSection db (some uid) now newId i = (.ok sid, db') ∧
         db'.scripts = db.scripts ∧
         db'.sections.length = db.sections.length ∧
         ∀ (j : Nat) (old : ScriptSection), db.sections[j]? = some old →
           ∃ new, db'.sections[j]? = some new ∧ sectionRowUpdated i sid old new) := by
  have htr : strTruthy i.id = true := by
    simp [strTruthy, hid, hne]
  have hgd : i.id.getD "" = sid := by
    simp [hid]
  refine ⟨?_, ?_, ?_⟩
  · intro hnone
    simp [upsertMeditationScriptSection, hv, hscript, htr, hgd, hnone]
  · intro ex hex hmis
    simp [upsertMeditationScriptSection, hv, hscript, htr, hgd, hex, hmis]
  · intro ex hex hmatch
    simp only [upsertMeditationScriptSection, hv, if_true, hscript, htr, hgd, hex, hmatch]
    refine ⟨{ db with sections := db.sections.map (fun s => if s.id == sid then applySectionUpdates i s else s) }, ?_, rfl, by simp, ?_⟩
    · simp
    intro j old hold
    by_cases hrow : old.id = sid
    · refine ⟨applySectionUpdates i old, ?_, ?_, ?_⟩
      · simp [hold, hrow]
      · intro hc
        exact absurd hrow hc
      · intro _
        unfold applySectionUpdates
        refine ⟨rfl, rfl, rfl, rfl, rfl, ?_, ?_, ?_, ?_, ?_, ?_⟩ <;>
        · intros
          simp_all
    · refine ⟨old, ?_, ?_, ?_⟩
      · simp [hold, hrow]
      · intro _
        rfl
      · intro h1
        exact absurd h1 hrow

/-- C6 witness: updating Section `T1` of Script `A` in place returns id `T1`
and satisfies the frame description. -/
theorem upsertSection_nonempty_id_semantics_witness :
    ∃ db', upsertMeditationScriptSection scriptWithSectionStore (some "u") 8 "N"
        updateSectionInput = (.ok "T1", db') ∧
      db'.scripts = scriptWithSectionStore.scripts ∧
      db'.sections.length = scriptWithSectionStore.sections.length ∧
      ∀ (j : Nat) (old : ScriptSection), scriptWithSectionStore.sections[j]? = some old →
        ∃ new, db'.sections[j]? = some new ∧ sectionRowUpdated updateSectionInput "T1" old new :=
  (upsertSection_nonempty_id_semantics scriptWithSectionStore "u" 8 "N" updateSectionInput "T1"
    sampleScriptA (by decide) rfl (by decide) (by decide)).2.2 sampleSectionT1 (by decide)
    (by decide)

/-- C7: creating a Script with a fresh id and then fetching it by that id
returns a Script whose fields equal the input, with `isFavorite` defaulted to
false when omitted, owner equal to the caller, `createdAt = updatedAt = now`,
and an empty sections list. -/
theorem createScript_then_get_roundtrip (db : Store) (uid : String) (now : Int)
    (newId : String) (ci : CreateScriptInput)
    (hv : validCreateInput ci = true)
    (hfresh : ∀ s ∈ db.scripts, s.id ≠ newId)
    (hfreshSec : ∀ t ∈ db.sections, t.scriptId ≠ newId) :
    ∃ db' script, createMeditationScript db (some uid) now newId ci = (.ok newId, db') ∧
      getMeditationScriptWithSections db' (some uid) newId = .ok (script, []) ∧
      script.id = newId ∧ script.userId = uid ∧ script.title = ci.title ∧
      script.description = ci.description ∧ script.meditationType = ci.meditationType ∧
      script.focusArea = ci.focusArea ∧ script.difficulty = ci.difficulty ∧
      script.language = ci.language ∧
      script.targetDurationMinutes = ci.targetDurationMinutes ∧
      script.fullScript = ci.fullScript ∧ script.notes = ci.notes ∧
      script.isFavorite = ci.isFavorite.getD false ∧
      script.createdAt = now ∧ script.updatedAt = now := by
  simp only [createMeditationScript, hv, if_true]
  refine ⟨_, { id := newId, userId := uid, title := ci.title, description := ci.description, meditationType := ci.meditationType, focusArea := ci.focusArea, difficulty := ci.difficulty, language := ci.language, targetDurationMinutes := ci.targetDurationMinutes, fullScript := ci.fullScript, notes := ci.notes, isFavorite := ci.isFavorite.getD false, createdAt := now, updatedAt := now }, rfl, ?_, rfl, rfl, rfl, rfl, rfl, rfl, rfl, rfl, rfl, rfl, rfl, rfl, rfl, rfl⟩
  have hfil : db.scripts.filter (fun s => s.id == newId && s.userId == uid) = [] := by
    rw [List.filter_eq_nil_iff]
    intro a ha
    simp [hfresh a ha]
  have hsecfil : db.sections.filter (fun s => s.scriptId == newId) = [] := by
    rw [List.filter_eq_nil_iff]
    intro t ht
    simp [hfreshSec t ht]
  simp [getMeditationScriptWithSections, getOwnedScript, List.filter_append, hfil, hsecfil,
    sortByOrder]

/-- C7 witness: the round trip on the empty store with a title-only input. -/
theorem createScript_then_get_roundtrip_witness :
    ∃ db' script, createMeditationScript ⟨[], []⟩ (some "u") 3 "S1" sampleCreateInput
        = (.ok "S1", db') ∧
      getMeditationScriptWithSections db' (some "u") "S1" = .ok (script, []) ∧
      script.id = "S1" ∧ script.userId = "u" ∧ script.title = sampleCreateInput.title ∧
      script.description = sampleCreateInput.description ∧
      script.meditationType = sampleCreateInput.meditationType ∧
      script.focusArea = sampleCreateInput.focusArea ∧
      script.difficulty = sampleCreateInput.difficulty ∧
      script.language = sampleCreateInput.language ∧
      script.targetDurationMinutes = sampleCreateInput.targetDurationMinutes ∧
      script.fullScript = sampleCreateInput.fullScript ∧
      script.notes = sampleCreateInput.notes ∧
      script.isFavorite = sampleCreateInput.isFavorite.getD false ∧
      script.createdAt = 3 ∧ script.updatedAt = 3 :=
  createScript_then_get_roundtrip ⟨[], []⟩ "u" 3 "S1" sampleCreateInput (by decide)
    (by decide) (by decide)

/-- C8: deleting a Section fails NotFound when the Section is absent; when it
exists but its parent Script is not owned by the caller it fails NotFound (not
Forbidden) with the store untouched; otherwise the Section is removed, its id
returned, no Section with that id remains, and a second delete of the same id
fails NotFound. -/
theorem deleteSection_semantics (db : Store) (uid : String) (id : String) :
    ((db.sections.filter (fun s => s.id == id)).head? = none →
       deleteMeditationScriptSection db (some uid) id = (.error .notFound, db)) ∧
    (∀ sec, (db.sections.filter (fun s => s.id == id)).head? = some sec →
       getOwnedScript db sec.scriptId uid = none →
       deleteMeditationScriptSection db (some uid) id = (.error .notFound, db)) ∧
    (∀ sec script, (db.sections.filter (fun s => s.id == id)).head? = some sec →
       getOwnedScript db sec.scriptId uid = some script →
       deleteMeditationScriptSection db (some uid) id
           = (.ok id, { db with sections := db.sections.filter (fun s => !(s.id == id)) }) ∧
       (∀ t ∈ db.sections.filter (fun s => !(s.id == id)), t.id ≠ id) ∧
       deleteMeditationScriptSection
           { db with sections := db.sections.filter (fun s => !(s.id == id)) } (some uid) id
         = (.error .notFound,
            { db with sections := db.sections.filter (fun s => !(s.id == id)) })) := by
  refine ⟨?_, ?_, ?_⟩
  · intro hnone
    simp [deleteMeditationScriptSection, hnone]
  · intro sec hsec hno
    simp [deleteMeditationScriptSection, hsec, hno]
  · intro sec script hsec hsc
    refine ⟨by simp [deleteMeditationScriptSection, hsec, hsc], ?_, ?_⟩
    · intro t ht
      simp [List.mem_filter] at ht
      exact ht.2
    · have hdel : (db.sections.filter (fun s => !(s.id == id))).filter
          (fun s => s.id == id) = [] := by
        simp [List.filter_filter]
      simp [deleteMeditationScriptSection, hdel]

/-- C8 witness: deleting Section `T1` of the owned Script `A` succeeds, removes
it, and a second delete fails NotFound. -/
theorem deleteSection_semantics_witness :
    deleteMeditationScriptSection scriptWithSectionStore (some "u") "T1"
        = (.ok "T1", { scriptWithSectionStore with
            sections := scriptWithSectionStore.sections.filter (fun s => !(s.id == "T1")) }) ∧
    (∀ t ∈ scriptWithSectionStore.sections.filter (fun s => !(s.id == "T1")), t.id ≠ "T1") ∧
    deleteMeditationScriptSection
        { scriptWithSectionStore with
          sections := scriptWithSectionStore.sections.filter (fun s => !(s.id == "T1")) }
        (some "u") "T1"
      = (.error .notFound,
         { scriptWithSectionStore with
           sections := scriptWithSectionStore.sections.filter (fun s => !(s.id == "T1")) }) :=
  (deleteSection_semantics scriptWithSectionStore "u" "T1").2.2 sampleSectionT1 sampleScriptA
    (by decide) (by decide)

/-- C9 counterexample: two stores agree on all Scripts, every Section of the
first belongs to a Script not owned by the caller and the second has no
Sections at all, yet the same upsert call is Forbidden on the first and
NotFound on the second — the observable result does depend on Sections of
unowned Scripts, so the existence of a foreign Section leaks despite the
owned-parent check running first. -/
theorem upsertSection_foreign_section_leak_cex :
    storeWithForeignSection.scripts = storeNoSections.scripts ∧
    (∀ t ∈ storeWithForeignSection.sections, ∀ s ∈ storeWithForeignSection.scripts,
       t.scriptId = s.id → s.userId ≠ "u") ∧
    storeNoSections.sections = [] ∧
    (upsertMeditationScriptSection storeWithForeignSection (some "u") 0 "N"
        upsertForeignIdInput).1 = .error .forbidden ∧
    (upsertMeditationScriptSection storeNoSections (some "u") 0 "N"
        upsertForeignIdInput).1 = .error .notFound := by
  exact ⟨rfl, by decide, rfl, by rfl, by rfl⟩

/-- C9 amended: only on the create path (id absent or empty) is the observable
result of upsertSection independent of the stored Sections — in particular of
Sections of unowned Scripts; when a non-empty id is supplied, the NotFound
versus Forbidden distinction can reveal the existence of a foreign Section
with that id. -/
theorem upsertSection_create_path_independent_of_sections
    (d1 d2 : Store) (u : Option String) (now : Int) (newId : String) (i : UpsertSectionInput)
    (hid : strTruthy i.id = false)
    (hs : d1.scripts = d2.scripts) :
    (upsertMeditationScriptSection d1 u now newId i).1
      = (upsertMeditationScriptSection d2 u now newId i).1 := by
  cases hval : validUpsertInput i with
  | false => simp [upsertMeditationScriptSection, hval]
  | true =>
    cases u with
    | none => simp [upsertMeditationScriptSection, hval]
    | some uid =>
      simp only [upsertMeditationScriptSection, hval, if_true, getOwnedScript, hs]
      cases hsc : (d2.scripts.filter (fun s => s.id == i.scriptId && s.userId == uid)).head? with
      | none => rfl
      | some script => simp [hid]

/-- C9 witness: the create-path result is the same on the store with a foreign
Section and on the store with none. -/
theorem upsertSection_create_path_independent_of_sections_witness :
    (upsertMeditationScriptSection storeWithForeignSection (some "u") 0 "N"
        sampleUpsertInput).1
      = (upsertMeditationScriptSection storeNoSections (some "u") 0 "N"
          sampleUpsertInput).1 :=
  upsertSection_create_path_independent_of_sections storeWithForeignSection storeNoSections
    (some "u") 0 "N" sampleUpsertInput (by decide) rfl

/-- C10: an upsert whose id is present but equal to the empty string takes the
create path: a new Section with the generated id is appended under the
resolved Script and that id is returned, instead of NotFound for the
nonexistent Section id. -/
theorem upsertSection_empty_id_creates (db : Store) (uid : String) (now : Int)
    (newId : String) (i : UpsertSectionInput) (script : Script)
    (hv : validUpsertInput i = true)
    (hid : i.id = some "")
    (hscript : getOwnedScript db i.scriptId uid = some script) :
    upsertMeditationScriptSection db (some uid) now newId i =
      (.ok newId, { db with sections := db.sections ++ [{ id := newId, scriptId := script.id, orderIndex := i.orderIndex, sectionType := i.sectionType, title := i.title, body := i.body, suggestedDurationMinutes := i.suggestedDurationMinutes, createdAt := now }] }) := by
  have htr : strTruthy i.id = false := by
    simp [strTruthy, hid]
  simp [upsertMeditationScriptSection, hv, hscript, htr]

/-- C10 witness: the empty-string id upsert on the singleton store creates the
new Section `N`. -/
theorem upsertSection_empty_id_creates_witness :
    upsertMeditationScriptSection oneScriptStore (some "u") 7 "N" emptyIdUpsertInput =
      (.ok "N", { oneScriptStore with sections := oneScriptStore.sections ++ [{ id := "N", scriptId := sampleScriptA.id, orderIndex := emptyIdUpsertInput.orderIndex, sectionType := emptyIdUpsertInput.sectionType, title := emptyIdUpsertInput.title, body := emptyIdUpsertInput.body, suggestedDurationMinutes := emptyIdUpsertInput.suggestedDurationMinutes, createdAt := 7 }] }) :=
  upsertSection_empty_id_creates oneScriptStore "u" 7 "N" emptyIdUpsertInput sampleScriptA
    (by decide) rfl (by decide)

end MeditationScriptMaker
